import Mathlib

/-!
Verification of the alert store and evaluation engine
(`app/services/alert_service.py`, `app/models/alert.py`).

The embedding is shallow: the Python `AlertService` object state becomes
`StoreState` (the in-memory owner-keyed mapping, the last successfully
persisted mapping, a fresh-id counter and the per-user maximum); each
mutating method becomes a pure function returning the call's outcome
together with the post-call object state.  `uuid.uuid4()` is modelled by
a counter producing a fresh identifier on every create; prices are
rationals; `f"{x:.2f}"` formatting is modelled by rounding to hundredths.
Exceptions raised by `_save_alerts` are modelled by a `saveOk` flag: the
Python method either returns normally (`saveOk = true`, the durable file
now holds the in-memory mapping) or raises (`saveOk = false`, the durable
file is untouched and the error propagates to the caller).
-/

namespace AlertApp

/-- The `AlertType` enum (`app/models/alert.py`). -/
inductive AlertType where
  | price_threshold
  | signal_change
  | portfolio_value
deriving DecidableEq, Repr

/-- The `PriceDirection` enum (`app/models/alert.py`). -/
inductive PriceDirection where
  | above
  | below
deriving DecidableEq, Repr

/-- The `SignalTarget` enum (`app/models/alert.py`). -/
inductive SignalTarget where
  | buy
  | sell
  | hold
deriving DecidableEq, Repr

/-- One stored alert record: the dict built in `AlertService.create_alert`
(equivalently the `Alert` pydantic model).  Kind-irrelevant fields are
`none`, matching the `alert_data.get(...)` defaults.  The opaque uuid
string is modelled by a `Nat` drawn from a fresh counter; `created_at`
is likewise an opaque timestamp token. -/
structure AlertRec where
  id : Nat
  user_id : String
  alert_type : AlertType
  ticker : Option String := none
  target_price : Option ℚ := none
  price_direction : Option PriceDirection := none
  target_signal : Option SignalTarget := none
  percentage_threshold : Option ℚ := none
  baseline_value : Option ℚ := none
  created_at : Nat := 0
deriving DecidableEq, Repr

/-- The caller-supplied `alert_data` dict of `create_alert` (validated
upstream by the discriminated-union request schemas). -/
structure CreateData where
  alert_type : AlertType
  ticker : Option String := none
  target_price : Option ℚ := none
  price_direction : Option PriceDirection := none
  target_signal : Option SignalTarget := none
  percentage_threshold : Option ℚ := none
  baseline_value : Option ℚ := none
deriving DecidableEq, Repr

/-- The owner-keyed mapping `self._alerts : dict[str, list[dict]]`,
as an insertion-ordered association list (Python dict semantics). -/
def AlertsMap := List (String × List AlertRec)

instance : DecidableEq AlertsMap := by
  unfold AlertsMap
  infer_instance

/-- Python `self._alerts.get(user_id, [])`. -/
def getUserAlerts : AlertsMap → String → List AlertRec
  | [], _ => []
  | (k, v) :: rest, u => if k = u then v else getUserAlerts rest u

/-- Python `self._alerts[user_id] = xs`: replace the value at an existing key in
place, or append a new key at the end (Python dict update semantics). -/
def setUserAlerts : AlertsMap → String → List AlertRec → AlertsMap
  | [], u, xs => [(u, xs)]
  | (k, v) :: rest, u, xs =>
      if k = u then (u, xs) :: rest else (k, v) :: setUserAlerts rest u xs

/-- The `AlertService` object state.  `alerts` is the in-memory mapping,
`durable` the mapping held by the durable file after the last successful
`_save_alerts`, `nextId` the fresh-uuid counter, `maxPerUser` the
configured quota (`max_per_user`, default 10). -/
structure StoreState where
  alerts : AlertsMap
  durable : AlertsMap
  nextId : Nat
  maxPerUser : Nat
deriving DecidableEq

/-- Typed errors: `AlertLimitExceededError`, `AlertNotFoundError`
(`app/api/errors.py`) and a propagated `_save_alerts` exception. -/
inductive AlertError where
  | limitExceeded (current_count : Nat) (max_allowed : Nat)
  | notFound (alert_id : Nat)
  | saveFailed
deriving DecidableEq, Repr

instance {ε α : Type} [DecidableEq ε] [DecidableEq α] :
    DecidableEq (Except ε α) := fun x y =>
  match x, y with
  | Except.ok a, Except.ok b =>
      if h : a = b then isTrue (by rw [h])
      else isFalse (by intro he; cases he; exact h rfl)
  | Except.error a, Except.error b =>
      if h : a = b then isTrue (by rw [h])
      else isFalse (by intro he; cases he; exact h rfl)
  | Except.ok _, Except.error _ => isFalse (by intro he; cases he)
  | Except.error _, Except.ok _ => isFalse (by intro he; cases he)

/-- The dict literal built inside `create_alert` lines 121-132. -/
def mkAlertRec (s : StoreState) (uid : String) (d : CreateData) : AlertRec :=
  { id := s.nextId
    user_id := uid
    alert_type := d.alert_type
    ticker := d.ticker
    target_price := d.target_price
    price_direction := d.price_direction
    target_signal := d.target_signal
    percentage_threshold := d.percentage_threshold
    baseline_value := d.baseline_value
    created_at := s.nextId }

/-- Model of `AlertService.create_alert`.  Returns the Python call's outcome
(result or raised error) together with the post-call object state.
Note the source order: the new dict is appended to `self._alerts`
(lines 134-136) before `self._save_alerts()` (line 137) runs; if the
save raises, the exception propagates with the append still in memory. -/
def create_alert (s : StoreState) (saveOk : Bool) (uid : String)
    (d : CreateData) : Except AlertError AlertRec × StoreState :=
  let userAlerts := getUserAlerts s.alerts uid
  if s.maxPerUser ≤ userAlerts.length then
    (Except.error (AlertError.limitExceeded userAlerts.length s.maxPerUser), s)
  else
    let r := mkAlertRec s uid d
    let m := setUserAlerts s.alerts uid (userAlerts ++ [r])
    if saveOk then
      (Except.ok r, { s with alerts := m, durable := m, nextId := s.nextId + 1 })
    else
      (Except.error AlertError.saveFailed,
        { s with alerts := m, nextId := s.nextId + 1 })

/-- Model of `AlertService.delete_alert`.  Filters the owner's list (line 157);
an unchanged length raises `AlertNotFoundError`; otherwise the filtered
list is stored (line 162) before `self._save_alerts()` (line 163). -/
def delete_alert (s : StoreState) (saveOk : Bool) (uid : String)
    (aid : Nat) : Except AlertError Unit × StoreState :=
  let userAlerts := getUserAlerts s.alerts uid
  let filtered := userAlerts.filter (fun a => decide (a.id ≠ aid))
  if filtered.length = userAlerts.length then
    (Except.error (AlertError.notFound aid), s)
  else
    let m := setUserAlerts s.alerts uid filtered
    if saveOk then
      (Except.ok (), { s with alerts := m, durable := m })
    else
      (Except.error AlertError.saveFailed, { s with alerts := m })

/-- Model of `AlertService.list_alerts` (the `_to_alert` conversion is the
identity on the typed record). -/
def list_alerts (s : StoreState) (uid : String) : List AlertRec :=
  getUserAlerts s.alerts uid

/-- One API call against the store, with the fate of its save step. -/
inductive Op where
  | create (saveOk : Bool) (uid : String) (d : CreateData)
  | del (saveOk : Bool) (uid : String) (aid : Nat)

/-- The object state after one call (raised errors discarded). -/
def step (s : StoreState) : Op → StoreState
  | Op.create ok uid d => (create_alert s ok uid d).2
  | Op.del ok uid aid => (delete_alert s ok uid aid).2

/-- A freshly constructed service over a missing data file. -/
def initState (maxPerUser : Nat) : StoreState :=
  { alerts := [], durable := [], nextId := 0, maxPerUser := maxPerUser }

/-- The object state after a sequence of calls from a fresh service. -/
def run (maxPerUser : Nat) (ops : List Op) : StoreState :=
  ops.foldl step (initState maxPerUser)

/-- Minimal alert info embedded in evaluation results
(`AlertSummaryInfo`, built by `AlertService._alert_to_summary`). -/
structure AlertSummaryInfo where
  id : Nat
  alert_type : AlertType
  ticker : Option String
  target_price : Option ℚ
  price_direction : Option PriceDirection
  target_signal : Option SignalTarget
  percentage_threshold : Option ℚ
  baseline_value : Option ℚ
deriving DecidableEq, Repr

/-- Model of `AlertService._alert_to_summary`. -/
def alertToSummary (a : AlertRec) : AlertSummaryInfo :=
  { id := a.id
    alert_type := a.alert_type
    ticker := a.ticker
    target_price := a.target_price
    price_direction := a.price_direction
    target_signal := a.target_signal
    percentage_threshold := a.percentage_threshold
    baseline_value := a.baseline_value }

/-- The `TriggeredAlertResult` model (`app/models/alert.py`); the per-call
`evaluated_at` timestamp is not modelled. -/
structure TriggeredAlertResult where
  alert : AlertSummaryInfo
  triggered : Bool := false
  current_value : Option String := none
  details : Option String := none
  error : Option String := none
deriving DecidableEq, Repr

/-- The `TriggeredAlertsSummary` model (`app/models/alert.py`); counts are Python
ints, and `not_triggered_count` is computed by subtraction, so ℤ. -/
structure TriggeredAlertsSummary where
  total_alerts : ℤ := 0
  triggered_count : ℤ := 0
  not_triggered_count : ℤ := 0
  error_count : ℤ := 0
deriving DecidableEq, Repr

/-- Two-digit zero padding for the fractional part of `format2`. -/
def padTwo (n : Nat) : String :=
  if n < 10 then "0" ++ toString n else toString n

/-- Python `f"{x:.2f}"` on an exact rational: round to hundredths
and print with two decimals. -/
def format2 (q : ℚ) : String :=
  let c : ℤ := round (q * 100)
  let sign := if c < 0 then "-" else ""
  sign ++ toString (c.natAbs / 100) ++ "." ++ padTwo (c.natAbs % 100)

/-- Python `f"{x:.1f}"` on an exact rational. -/
def format1 (q : ℚ) : String :=
  let d : ℤ := round (q * 10)
  let sign := if d < 0 then "-" else ""
  sign ++ toString (d.natAbs / 10) ++ "." ++ toString (d.natAbs % 10)

/-- Python string interpolation of a nullable ticker (`str(None)`). -/
def tickerText : Option String → String
  | none => "None"
  | some t => t

/-- The detail line of `evaluate_price_threshold` (lines 200-209). -/
def mkPriceDetails (tk : Option String) (p : ℚ) (dir : PriceDirection)
    (tgt : ℚ) (trig : Bool) : String :=
  tickerText tk ++ " current price $" ++ format2 p ++ " is " ++
    (match dir, trig with
     | PriceDirection.above, true => "above"
     | PriceDirection.above, false => "below"
     | PriceDirection.below, true => "below"
     | PriceDirection.below, false => "above") ++
    " target $" ++ format2 tgt

/-- Model of `AlertService.evaluate_price_threshold`.  Here `fetch` is the composite
of `data_fetcher.fetch_historical_data` and the last-`Close` extraction;
`none` models any exception from that pipeline.  A missing
`price_direction` or `target_price` raises inside the `try` block
(attribute/comparison error) and lands in the same `except` clause. -/
def evaluate_price_threshold (fetch : String → Option ℚ)
    (a : AlertRec) : TriggeredAlertResult :=
  let summary := alertToSummary a
  match a.ticker.bind fetch with
  | none =>
      { alert := summary, triggered := false,
        error := some ("Failed to fetch data for " ++ tickerText a.ticker) }
  | some p =>
      match a.price_direction, a.target_price with
      | some dir, some tgt =>
          let trig : Bool :=
            if dir = PriceDirection.above then decide (tgt < p)
            else decide (p < tgt)
          { alert := summary, triggered := trig,
            current_value := some (format2 p),
            details := some (mkPriceDetails a.ticker p dir tgt trig) }
      | _, _ =>
          { alert := summary, triggered := false,
            error := some ("Failed to fetch data for " ++ tickerText a.ticker) }

/-- Rendering of a `SignalTarget` enum value (`.value`). -/
def signalStr : SignalTarget → String
  | SignalTarget.buy => "BUY"
  | SignalTarget.sell => "SELL"
  | SignalTarget.hold => "HOLD"

/-- Model of `AlertService.evaluate_signal_change`.  Here `signalOf` is the composite
fetch → indicators → current price → generated signal pipeline; `none`
models an exception anywhere in it.  A missing `target_signal` raises
inside the `try` block and lands in the same `except` clause. -/
def evaluate_signal_change (signalOf : String → Option SignalTarget)
    (a : AlertRec) : TriggeredAlertResult :=
  let summary := alertToSummary a
  match a.ticker.bind signalOf, a.target_signal with
  | some cur, some tgtS =>
      { alert := summary, triggered := decide (cur = tgtS),
        current_value := some (signalStr cur),
        details := some (tickerText a.ticker ++ " current signal is " ++
          signalStr cur ++ ", target is " ++ signalStr tgtS) }
  | _, _ =>
      { alert := summary, triggered := false,
        error := some ("Failed to fetch data for " ++ tickerText a.ticker) }

/-- The `total_value` accumulation loop of `evaluate_portfolio_value`
(lines 290-301): tickers whose fetch fails are skipped individually. -/
def portfolioTotal (fetch : String → Option ℚ) (holdings : List String) : ℚ :=
  holdings.foldl
    (fun acc t => match fetch t with | some p => acc + p | none => acc) 0

/-- The detail line of `evaluate_portfolio_value` (lines 311-316). -/
def mkPortfolioDetails (pct baseline total th : ℚ) (trig : Bool) : String :=
  "Portfolio value changed by " ++ format1 pct ++ "% (from $" ++
    format2 baseline ++ " to $" ++ format2 total ++ "), " ++
    (if trig then "exceeds" else "below") ++ " " ++ format1 th ++
    "% threshold"

/-- Model of `AlertService.evaluate_portfolio_value`.  Empty holdings return early
(lines 281-288); `alert.baseline_value or 0.0` is `getD 0`; a missing
`percentage_threshold` makes the comparison on line 309 raise and lands
in the outer `except` clause. -/
def evaluate_portfolio_value (fetch : String → Option ℚ)
    (holdings : List String) (a : AlertRec) : TriggeredAlertResult :=
  let summary := alertToSummary a
  if holdings.isEmpty then
    { alert := summary, triggered := false, current_value := some "0.00",
      details := some "Portfolio has no holdings, value is $0.00" }
  else
    let total := portfolioTotal fetch holdings
    let baseline := a.baseline_value.getD 0
    let pct := if 0 < baseline then |(total - baseline) / baseline| * 100 else 0
    match a.percentage_threshold with
    | none =>
        { alert := summary, triggered := false,
          error := some "Failed to evaluate portfolio value" }
    | some th =>
        let trig : Bool := decide (th ≤ pct)
        { alert := summary, triggered := trig,
          current_value := some (format2 total),
          details := some (mkPortfolioDetails pct baseline total th trig) }

/-- The per-alert dispatch of `check_triggered_alerts` (lines 349-368);
the closed `AlertType` enum makes the unknown-type branch unreachable. -/
def dispatchAlert (fetch : String → Option ℚ)
    (signalOf : String → Option SignalTarget) (holdings : List String)
    (a : AlertRec) : TriggeredAlertResult :=
  match a.alert_type with
  | AlertType.price_threshold => evaluate_price_threshold fetch a
  | AlertType.signal_change => evaluate_signal_change signalOf a
  | AlertType.portfolio_value => evaluate_portfolio_value fetch holdings a

/-- Model of `AlertService.check_triggered_alerts`: evaluate every stored alert of
the owner in listing order and tally the summary counts. -/
def check_triggered_alerts (s : StoreState) (uid : String)
    (fetch : String → Option ℚ) (signalOf : String → Option SignalTarget)
    (portfolio_holdings : Option (List String)) :
    List TriggeredAlertResult × TriggeredAlertsSummary :=
  let alerts := list_alerts s uid
  let holdings := portfolio_holdings.getD []
  let results := alerts.map (dispatchAlert fetch signalOf holdings)
  let triggeredCount : ℤ := ((results.filter (fun r => r.triggered)).length : ℤ)
  let errorCount : ℤ :=
    ((results.filter (fun r => r.error.isSome)).length : ℤ)
  (results,
    { total_alerts := (results.length : ℤ)
      triggered_count := triggeredCount
      not_triggered_count := (results.length : ℤ) - triggeredCount - errorCount
      error_count := errorCount })

/-- The spec's concrete price-threshold payload:
`PriceThreshold{ticker="AAPL", target=200, direction=Above}`. -/
def dPrice : CreateData :=
  { alert_type := AlertType.price_threshold, ticker := some "AAPL",
    target_price := some 200, price_direction := some PriceDirection.above }

/-- A service configured with quota 2 already holding two alerts
for owner `"u"`. -/
def atQuotaState : StoreState :=
  run 2 [Op.create true "u" dPrice, Op.create true "u" dPrice]

/-- A service holding exactly one alert (id 0) for owner `"u"`. -/
def oneAlertState : StoreState :=
  run 2 [Op.create true "u" dPrice]

/-- Every alert id stored anywhere in the mapping (all owners). -/
def allIds (m : AlertsMap) : List Nat :=
  (m.map (fun p => p.2.map (fun a => a.id))).flatten

/-- Invariant of every reachable service state: alerts listed under an
owner were created for that owner, every stored id was drawn from the
counter, and ids are globally unique across all owners. -/
structure Inv (s : StoreState) : Prop where
  owner_eq : ∀ u : String, ∀ a ∈ getUserAlerts s.alerts u, a.user_id = u
  ids_lt : ∀ i ∈ allIds s.alerts, i < s.nextId
  ids_nodup : (allIds s.alerts).Nodup

/-- A create call for owner `"alice"` (isolation scenario). -/
def demoOpsC3 : List Op := [Op.create true "alice" dPrice]

/-- The spec's concrete stored price-threshold alert:
`PriceThreshold{ticker="AAPL", target=200, direction=Above}`. -/
def aaplAlert : AlertRec :=
  { id := 0, user_id := "u", alert_type := AlertType.price_threshold,
    ticker := some "AAPL", target_price := some 200,
    price_direction := some PriceDirection.above, created_at := 0 }

/-- The spec's concrete stored portfolio-value alert:
`PortfolioValue{percentage_threshold=5, baseline_value=1000}`. -/
def pfAlert : AlertRec :=
  { id := 1, user_id := "u", alert_type := AlertType.portfolio_value,
    percentage_threshold := some 5, baseline_value := some 1000,
    created_at := 0 }

/-- Price provider for the partial-failure scenario: holding `"A"`
fetches 10, `"C"` fetches 32, and `"B"` (or anything else) fails. -/
def demoFetchC6 : String → Option ℚ := fun t =>
  if t = "A" then some 10 else if t = "C" then some 32 else none

/-! ### Persistence layer: JSON serialization of the durable file -/

/-- JSON values, as produced by `json.dumps`/`json.loads`. -/
inductive Json where
  | null
  | bool (b : Bool)
  | num (q : ℚ)
  | str (s : String)
  | arr (xs : List Json)
  | obj (kvs : List (String × Json))

/-- Rendering of an `AlertType` as its `.value` string. -/
def alertTypeStr : AlertType → String
  | AlertType.price_threshold => "price_threshold"
  | AlertType.signal_change => "signal_change"
  | AlertType.portfolio_value => "portfolio_value"

/-- Rendering of a `PriceDirection` as its `.value` string. -/
def dirStr : PriceDirection → String
  | PriceDirection.above => "above"
  | PriceDirection.below => "below"

/-- Pydantic parsing of the `alert_type` field. -/
def alertTypeOfStr (s : String) : Option AlertType :=
  if s = "price_threshold" then some AlertType.price_threshold
  else if s = "signal_change" then some AlertType.signal_change
  else if s = "portfolio_value" then some AlertType.portfolio_value
  else none

/-- Pydantic parsing of the `price_direction` field. -/
def dirOfStr (s : String) : Option PriceDirection :=
  if s = "above" then some PriceDirection.above
  else if s = "below" then some PriceDirection.below
  else none

/-- Pydantic parsing of the `target_signal` field. -/
def signalOfStr (s : String) : Option SignalTarget :=
  if s = "BUY" then some SignalTarget.buy
  else if s = "SELL" then some SignalTarget.sell
  else if s = "HOLD" then some SignalTarget.hold
  else none

/-- A nullable string field, as serialized (`None` becomes JSON null). -/
def encodeOptStr : Option String → Json
  | none => Json.null
  | some s => Json.str s

/-- A nullable numeric field, as serialized. -/
def encodeOptQ : Option ℚ → Json
  | none => Json.null
  | some q => Json.num q

/-- Serialization (`json.dump`) of one stored alert dict (the ten keys built by
`create_alert` lines 121-132, in that order); the opaque uuid and
timestamp tokens serialize as numbers in the model. -/
def encodeRec (a : AlertRec) : Json :=
  Json.obj [("id", Json.num (a.id : ℚ)),
    ("user_id", Json.str a.user_id),
    ("alert_type", Json.str (alertTypeStr a.alert_type)),
    ("ticker", encodeOptStr a.ticker),
    ("target_price", encodeOptQ a.target_price),
    ("price_direction", encodeOptStr (a.price_direction.map dirStr)),
    ("target_signal", encodeOptStr (a.target_signal.map signalStr)),
    ("percentage_threshold", encodeOptQ a.percentage_threshold),
    ("baseline_value", encodeOptQ a.baseline_value),
    ("created_at", Json.num (a.created_at : ℚ))]

/-- The key-value pairs of the serialized owner mapping. -/
def encodeMapRaw (m : AlertsMap) : List (String × Json) :=
  m.map (fun p => (p.1, Json.arr (p.2.map encodeRec)))

/-- Serialization of the whole durable file content (`json.dump(self._alerts, ...)`). -/
def encodeMap (m : AlertsMap) : Json := Json.obj (encodeMapRaw m)

/-- Field decoders for pydantic validation of a raw record. -/
def decodeStr : Json → Option String
  | Json.str s => some s
  | _ => none

def decodeOptStr : Json → Option (Option String)
  | Json.null => some none
  | Json.str s => some (some s)
  | _ => none

def decodeOptQ : Json → Option (Option ℚ)
  | Json.null => some none
  | Json.num q => some (some q)
  | _ => none

def decodeNat : Json → Option Nat
  | Json.num q => if q.den = 1 ∧ 0 ≤ q.num then some q.num.toNat else none
  | _ => none

def decodeOptDir : Json → Option (Option PriceDirection)
  | Json.null => some none
  | Json.str s => (dirOfStr s).map some
  | _ => none

def decodeOptSignal : Json → Option (Option SignalTarget)
  | Json.null => some none
  | Json.str s => (signalOfStr s).map some
  | _ => none

/-- Keyword access into a parsed JSON object (`data["key"]`). -/
def jlookup (kvs : List (String × Json)) (k : String) : Option Json :=
  (kvs.find? (fun p => p.1 == k)).map (fun p => p.2)

/-- Pydantic validation `Alert(**data)` of one raw record, applied by
`_to_alert` when listing: each field of the entity is read from the
record by key and validated against its declared type. -/
def decodeRec : Json → Option AlertRec
  | Json.obj kvs => do
      let i ← (jlookup kvs "id").bind decodeNat
      let uid ← (jlookup kvs "user_id").bind decodeStr
      let ty ← (jlookup kvs "alert_type").bind
        (fun j => (decodeStr j).bind alertTypeOfStr)
      let tk ← (jlookup kvs "ticker").bind decodeOptStr
      let tp ← (jlookup kvs "target_price").bind decodeOptQ
      let pd ← (jlookup kvs "price_direction").bind decodeOptDir
      let ts ← (jlookup kvs "target_signal").bind decodeOptSignal
      let pt ← (jlookup kvs "percentage_threshold").bind decodeOptQ
      let bv ← (jlookup kvs "baseline_value").bind decodeOptQ
      let ca ← (jlookup kvs "created_at").bind decodeNat
      pure { id := i, user_id := uid, alert_type := ty, ticker := tk,
             target_price := tp, price_direction := pd,
             target_signal := ts, percentage_threshold := pt,
             baseline_value := bv, created_at := ca }
  | _ => none

/-- The list comprehension `[self._to_alert(a) for a in raw]`:
sequential conversion, failing at the first invalid record. -/
def decodeList : List Json → Option (List AlertRec)
  | [] => some []
  | j :: rest => do
      let a ← decodeRec j
      let as ← decodeList rest
      pure (a :: as)

/-- Typed reading of every owner's sequence from the raw mapping. -/
def decodeEntries : List (String × Json) → Option AlertsMap
  | [] => some []
  | (k, v) :: rest =>
      match v with
      | Json.arr xs => do
          let recs ← decodeList xs
          let restm ← decodeEntries rest
          pure ((k, recs) :: restm)
      | _ => none

/-- Typed reading of a whole durable file value. -/
def decodeMap : Json → Option AlertsMap
  | Json.obj kvs => decodeEntries kvs
  | _ => none

/-- Python `len(v)`: defined only for sized values. -/
def jsonLen : Json → Option Nat
  | Json.str s => some s.length
  | Json.arr xs => some xs.length
  | Json.obj kvs => some kvs.length
  | _ => none

/-- The durable file as seen by `_load_alerts` on startup: missing,
present but not parseable as JSON, or parsed to a value. -/
inductive FileState where
  | missing
  | unparsable
  | parsed (j : Json)

/-- Model of `AlertService._load_alerts` (lines 44-75): the raw mapping adopted
as `self._alerts`, or `none` when the constructor raises — the logging
line 57 computes `len(v)` for every value inside the `try`, and a
`TypeError` from an unsized value is not among the caught exception
types (`JSONDecodeError`, `OSError`), so it propagates. -/
def loadAlertsRaw : FileState → Option (List (String × Json))
  | FileState.missing => some []
  | FileState.unparsable => some []
  | FileState.parsed (Json.obj kvs) =>
      if (kvs.map (fun p => jsonLen p.2)).all Option.isSome
      then some kvs else none
  | FileState.parsed _ => some []

/-! ### Association-list (Python dict) lemmas -/

theorem getUserAlerts_set_self (m : AlertsMap) (u : String)
    (xs : List AlertRec) : getUserAlerts (setUserAlerts m u xs) u = xs := by
  induction m with
  | nil => simp [setUserAlerts, getUserAlerts]
  | cons p rest ih =>
      obtain ⟨k, v⟩ := p
      by_cases h : k = u <;> simp [setUserAlerts, getUserAlerts, h, ih]

theorem getUserAlerts_set_ne (m : AlertsMap) (u v : String)
    (xs : List AlertRec) (h : v ≠ u) :
    getUserAlerts (setUserAlerts m u xs) v = getUserAlerts m v := by
  have h' : u ≠ v := Ne.symm h
  induction m with
  | nil => simp [setUserAlerts, getUserAlerts, h']
  | cons p rest ih =>
      obtain ⟨k, w⟩ := p
      by_cases hk : k = u
      · subst hk
        simp [setUserAlerts, getUserAlerts, h']
      · by_cases hv : k = v <;>
          simp [setUserAlerts, getUserAlerts, hk, hv, h, h', ih]

theorem length_filter_lt_of_mem {α : Type} (l : List α) (p : α → Bool)
    (x : α) (hx : x ∈ l) (hpx : p x = false) :
    (l.filter p).length < l.length := by
  induction l with
  | nil => cases hx
  | cons a as ih =>
      rcases List.mem_cons.mp hx with rfl | hmem
      · simp only [List.filter_cons, hpx]
        exact Nat.lt_succ_of_le (List.length_filter_le p as)
      · cases hpa : p a with
        | true =>
            simp only [List.filter_cons, hpa, List.length_cons]
            exact Nat.succ_lt_succ (ih hmem)
        | false =>
            simp only [List.filter_cons, hpa]
            exact Nat.lt_succ_of_lt (ih hmem)

/-! ### C2: quota enforcement -/

/-- C2.  When the owner's current alert count is at or above
`max_per_user`, `create_alert` raises `AlertLimitExceededError` carrying
the owner's current count and the configured maximum, and the whole
object state (in particular the owner's collection) is unchanged; when
the count is below the maximum (and the save step succeeds),
`create_alert` returns the new alert and the owner's collection gains
exactly that one alert at the end. -/
theorem quota_enforcement (s : StoreState) (ok : Bool) (uid : String)
    (d : CreateData) :
    (s.maxPerUser ≤ (list_alerts s uid).length →
      create_alert s ok uid d =
        (Except.error
          (AlertError.limitExceeded (list_alerts s uid).length s.maxPerUser),
         s)) ∧
    ((list_alerts s uid).length < s.maxPerUser →
      (create_alert s true uid d).1 = Except.ok (mkAlertRec s uid d) ∧
      list_alerts (create_alert s true uid d).2 uid
        = list_alerts s uid ++ [mkAlertRec s uid d]) := by
  constructor
  · intro h
    simp only [create_alert, list_alerts] at h ⊢
    simp [h]
  · intro h
    have hnot : ¬ s.maxPerUser ≤ (getUserAlerts s.alerts uid).length :=
      Nat.not_le.mpr h
    simp [create_alert, list_alerts, hnot, getUserAlerts_set_self]

/-- Closed instance for C2: a store at quota 2 rejects the third create
with the exact counts, and a store below quota appends one alert. -/
theorem quota_enforcement_witness :
    (2 ≤ (list_alerts atQuotaState "u").length ∧
      create_alert atQuotaState true "u" dPrice =
        (Except.error (AlertError.limitExceeded 2 2), atQuotaState)) ∧
    ((list_alerts (initState 2) "u").length < 2 ∧
      list_alerts (create_alert (initState 2) true "u" dPrice).2 "u"
        = list_alerts (initState 2) "u" ++ [mkAlertRec (initState 2) "u" dPrice]) :=
  ⟨⟨by decide,
    (quota_enforcement atQuotaState true "u" dPrice).1 (by decide)⟩,
   ⟨by decide,
    ((quota_enforcement (initState 2) true "u" dPrice).2 (by decide)).2⟩⟩

/-! ### C1: behaviour on persistence failure -/

/-- C1 counterexample: from an empty store, a create whose save step
fails propagates the error, yet the new alert is still present in the
in-memory collection afterwards — the in-memory state is not equal to
the pre-call state, and it diverges from the durable state. -/
theorem save_failure_rollback_cex :
    (create_alert (initState 10) false "u" dPrice).1
        = Except.error AlertError.saveFailed ∧
    ¬ list_alerts (create_alert (initState 10) false "u" dPrice).2 "u"
        = list_alerts (initState 10) "u" ∧
    ¬ (create_alert (initState 10) false "u" dPrice).2.alerts
        = (create_alert (initState 10) false "u" dPrice).2.durable := by
  refine ⟨rfl, ?_, ?_⟩ <;> decide

/-- C1 (amended): if the persistence step fails during a below-quota
create or a matching delete, the error is propagated and the durable
state is unchanged, but the in-memory collection retains the mutation
(the new alert stays appended; the deleted alert stays removed), so the
in-memory state diverges from the durable state until restart. -/
theorem save_failure_keeps_mutation_in_memory
    (s : StoreState) (uid : String) (d : CreateData) (aid : Nat)
    (hq : (list_alerts s uid).length < s.maxPerUser)
    (hmem : aid ∈ (list_alerts s uid).map (fun a => a.id)) :
    ((create_alert s false uid d).1 = Except.error AlertError.saveFailed ∧
     (create_alert s false uid d).2.durable = s.durable ∧
     list_alerts (create_alert s false uid d).2 uid
       = list_alerts s uid ++ [mkAlertRec s uid d]) ∧
    ((delete_alert s false uid aid).1 = Except.error AlertError.saveFailed ∧
     (delete_alert s false uid aid).2.durable = s.durable ∧
     list_alerts (delete_alert s false uid aid).2 uid
       = (list_alerts s uid).filter (fun a => decide (a.id ≠ aid))) := by
  have hnot : ¬ s.maxPerUser ≤ (getUserAlerts s.alerts uid).length :=
    Nat.not_le.mpr hq
  obtain ⟨x, hxmem, hxid⟩ := List.mem_map.mp hmem
  have hpx : (decide (x.id ≠ aid)) = false := by simp [hxid]
  have hlt := length_filter_lt_of_mem (getUserAlerts s.alerts uid)
    (fun a => decide (a.id ≠ aid)) x hxmem hpx
  have hne : ¬ ((getUserAlerts s.alerts uid).filter
      (fun a => decide (a.id ≠ aid))).length
      = (getUserAlerts s.alerts uid).length := Nat.ne_of_lt hlt
  constructor
  · simp [create_alert, list_alerts, hnot, getUserAlerts_set_self]
  · have hcond : ¬ ∀ a ∈ getUserAlerts s.alerts uid, ¬ a.id = aid := by
      push_neg
      exact ⟨x, hxmem, hxid⟩
    simp [delete_alert, list_alerts, hne, hcond, getUserAlerts_set_self]

/-- Closed instance for C1's amended statement: on a store holding the
single alert id 0, a failing delete propagates the error while the
in-memory collection already has the alert removed. -/
theorem save_failure_keeps_mutation_in_memory_witness :
    (delete_alert oneAlertState false "u" 0).1
        = Except.error AlertError.saveFailed ∧
    list_alerts (delete_alert oneAlertState false "u" 0).2 "u" = [] := by
  have h := save_failure_keeps_mutation_in_memory oneAlertState "u" dPrice 0
    (by decide) (by decide)
  refine ⟨h.2.1, ?_⟩
  rw [h.2.2.2]
  decide

/-! ### C3: ownership isolation -/

theorem allIds_cons (k : String) (v : List AlertRec)
    (rest : AlertsMap) :
    allIds ((k, v) :: rest) = v.map (fun a => a.id) ++ allIds rest := rfl

theorem mem_allIds_of_mem_get (m : AlertsMap) (u : String) (i : Nat)
    (h : i ∈ (getUserAlerts m u).map (fun a => a.id)) : i ∈ allIds m := by
  induction m with
  | nil => simp [getUserAlerts] at h
  | cons p rest ih =>
      obtain ⟨k, v⟩ := p
      rw [allIds_cons, List.mem_append]
      by_cases hk : k = u
      · simp only [getUserAlerts, if_pos hk] at h
        exact Or.inl h
      · simp only [getUserAlerts, if_neg hk] at h
        exact Or.inr (ih h)

theorem allIds_set (m : AlertsMap) (u : String) (xs : List AlertRec) :
    ∃ pre post : List Nat,
      allIds m = pre ++ (getUserAlerts m u).map (fun a => a.id) ++ post ∧
      allIds (setUserAlerts m u xs) = pre ++ xs.map (fun a => a.id) ++ post := by
  induction m with
  | nil =>
      refine ⟨[], [], ?_, ?_⟩ <;>
        simp [allIds, getUserAlerts, setUserAlerts]
  | cons p rest ih =>
      obtain ⟨k, v⟩ := p
      by_cases h : k = u
      · refine ⟨[], allIds rest, ?_, ?_⟩ <;>
          simp [allIds_cons, getUserAlerts, setUserAlerts, h]
      · obtain ⟨pre, post, h1, h2⟩ := ih
        refine ⟨v.map (fun a => a.id) ++ pre, post, ?_, ?_⟩ <;>
          simp [allIds_cons, getUserAlerts, setUserAlerts, h, h1, h2]

theorem get_ids_disjoint (m : AlertsMap) (hn : (allIds m).Nodup)
    (A B : String) (hAB : A ≠ B) (i : Nat)
    (hiA : i ∈ (getUserAlerts m A).map (fun a => a.id)) :
    i ∉ (getUserAlerts m B).map (fun a => a.id) := by
  induction m with
  | nil => simp [getUserAlerts] at hiA
  | cons p rest ih =>
      obtain ⟨k, v⟩ := p
      rw [allIds_cons] at hn
      obtain ⟨hnv, hnrest, hdisj⟩ := List.nodup_append.mp hn
      by_cases hA : k = A
      · have hB : ¬ k = B := fun hkB => hAB (hA.symm.trans hkB)
        simp only [getUserAlerts, if_pos hA] at hiA
        simp only [getUserAlerts, if_neg hB]
        intro hiB
        exact hdisj hiA (mem_allIds_of_mem_get rest B i hiB)
      · by_cases hB : k = B
        · simp only [getUserAlerts, if_neg hA] at hiA
          simp only [getUserAlerts, if_pos hB]
          intro hiB
          exact hdisj hiB (mem_allIds_of_mem_get rest A i hiA)
        · simp only [getUserAlerts, if_neg hA] at hiA
          simp only [getUserAlerts, if_neg hB]
          exact ih hnrest hiA

theorem inv_after_create (s : StoreState) (uid : String) (d : CreateData)
    (dur : AlertsMap) (h : Inv s) :
    Inv { alerts := setUserAlerts s.alerts uid
            (getUserAlerts s.alerts uid ++ [mkAlertRec s uid d]),
          durable := dur, nextId := s.nextId + 1,
          maxPerUser := s.maxPerUser } := by
  obtain ⟨pre, post, h1, h2⟩ :=
    allIds_set s.alerts uid (getUserAlerts s.alerts uid ++ [mkAlertRec s uid d])
  have hlt : ∀ i ∈ pre ++ (getUserAlerts s.alerts uid).map (fun a => a.id)
      ++ post, i < s.nextId := by
    rw [← h1]; exact h.ids_lt
  have hnd : (pre ++ (getUserAlerts s.alerts uid).map (fun a => a.id)
      ++ post).Nodup := by
    rw [← h1]; exact h.ids_nodup
  have hid : (mkAlertRec s uid d).id = s.nextId := rfl
  have hperm : List.Perm
      (allIds (setUserAlerts s.alerts uid
        (getUserAlerts s.alerts uid ++ [mkAlertRec s uid d])))
      ((pre ++ (getUserAlerts s.alerts uid).map (fun a => a.id) ++ post)
        ++ [s.nextId]) := by
    rw [h2, hid.symm]
    simp only [List.map_append, List.map_cons, List.map_nil,
      List.append_assoc]
    exact List.Perm.append_left pre (List.Perm.append_left _
      (List.perm_append_comm))
  constructor
  · intro v a ha
    by_cases hv : v = uid
    · subst hv
      rw [getUserAlerts_set_self] at ha
      rcases List.mem_append.mp ha with hold | hnew
      · exact h.owner_eq v a hold
      · rw [List.mem_singleton.mp hnew]; rfl
    · rw [getUserAlerts_set_ne _ _ _ _ hv] at ha
      exact h.owner_eq v a ha
  · intro i hi
    show i < s.nextId + 1
    have hi2 := hperm.subset hi
    rcases List.mem_append.mp hi2 with hmem | hlast
    · exact Nat.lt_succ_of_lt (hlt i hmem)
    · rw [List.mem_singleton.mp hlast]
      exact Nat.lt_succ_self _
  · refine hperm.nodup_iff.mpr ?_
    rw [List.nodup_append]
    refine ⟨hnd, List.nodup_singleton _, ?_⟩
    intro x hx hx1
    rw [List.mem_singleton.mp hx1] at hx
    exact Nat.lt_irrefl _ (hlt _ hx)

theorem inv_after_delete (s : StoreState) (uid : String)
    (p : AlertRec → Bool) (dur : AlertsMap) (h : Inv s) :
    Inv { alerts := setUserAlerts s.alerts uid
            ((getUserAlerts s.alerts uid).filter p),
          durable := dur, nextId := s.nextId,
          maxPerUser := s.maxPerUser } := by
  obtain ⟨pre, post, h1, h2⟩ :=
    allIds_set s.alerts uid ((getUserAlerts s.alerts uid).filter p)
  have hsub : List.Sublist
      (allIds (setUserAlerts s.alerts uid
        ((getUserAlerts s.alerts uid).filter p)))
      (allIds s.alerts) := by
    rw [h1, h2]
    exact List.Sublist.append
      (List.Sublist.append (List.Sublist.refl pre)
        (List.Sublist.map (fun a : AlertRec => a.id)
          (List.filter_sublist _)))
      (List.Sublist.refl post)
  constructor
  · intro v a ha
    by_cases hv : v = uid
    · subst hv
      rw [getUserAlerts_set_self] at ha
      exact h.owner_eq v a (List.mem_of_mem_filter ha)
    · rw [getUserAlerts_set_ne _ _ _ _ hv] at ha
      exact h.owner_eq v a ha
  · intro i hi
    show i < s.nextId
    exact h.ids_lt i (hsub.subset hi)
  · exact h.ids_nodup.sublist hsub

theorem inv_step (s : StoreState) (op : Op) (h : Inv s) :
    Inv (step s op) := by
  cases op with
  | create ok uid d =>
      show Inv (create_alert s ok uid d).2
      simp only [create_alert]
      by_cases hq : s.maxPerUser ≤ (getUserAlerts s.alerts uid).length
      · rw [if_pos hq]
        exact h
      · rw [if_neg hq]
        cases ok
        · rw [if_neg (by simp)]
          exact inv_after_create s uid d _ h
        · rw [if_pos rfl]
          exact inv_after_create s uid d _ h
  | del ok uid aid =>
      show Inv (delete_alert s ok uid aid).2
      simp only [delete_alert]
      by_cases hc : ((getUserAlerts s.alerts uid).filter
          (fun a => decide (a.id ≠ aid))).length
          = (getUserAlerts s.alerts uid).length
      · rw [if_pos hc]
        exact h
      · rw [if_neg hc]
        cases ok
        · rw [if_neg (by simp)]
          exact inv_after_delete s uid _ _ h
        · rw [if_pos rfl]
          exact inv_after_delete s uid _ _ h

theorem inv_run (maxN : Nat) (ops : List Op) : Inv (run maxN ops) := by
  have hinit : Inv (initState maxN) := by
    constructor <;> simp [initState, getUserAlerts, allIds]
  rw [run]
  generalize hs : initState maxN = s0 at hinit
  clear hs
  induction ops generalizing s0 with
  | nil => exact hinit
  | cons op rest ih => exact ih (step s0 op) (inv_step s0 op hinit)

/-- C3.  Ownership isolation: after any sequence of create/delete calls
from a fresh store, every alert visible in owner `B`'s list was created
for `B` (never for a different owner `A`), and `B`'s delete on the id of
any of `A`'s alerts raises `AlertNotFoundError` and leaves the whole
state — in particular both owners' collections — unchanged. -/
theorem ownership_isolation (maxN : Nat) (ops : List Op) (A B : String)
    (hAB : A ≠ B) :
    (∀ r ∈ list_alerts (run maxN ops) B, r.user_id ≠ A) ∧
    (∀ r ∈ list_alerts (run maxN ops) A, ∀ ok : Bool,
      delete_alert (run maxN ops) ok B r.id
        = (Except.error (AlertError.notFound r.id), run maxN ops)) := by
  have hinv := inv_run maxN ops
  constructor
  · intro r hr
    rw [hinv.owner_eq B r hr]
    exact Ne.symm hAB
  · intro r hr ok
    have hiA : r.id ∈ (getUserAlerts (run maxN ops).alerts A).map
        (fun a => a.id) := List.mem_map.mpr ⟨r, hr, rfl⟩
    have hiB := get_ids_disjoint (run maxN ops).alerts hinv.ids_nodup
      A B hAB r.id hiA
    have hfix : (getUserAlerts (run maxN ops).alerts B).filter
        (fun a => decide (a.id ≠ r.id))
        = getUserAlerts (run maxN ops).alerts B := by
      apply List.filter_eq_self.mpr
      intro a ha
      simp only [decide_eq_true_eq]
      intro heq
      exact hiB (List.mem_map.mpr ⟨a, ha, heq⟩)
    have hlen : ((getUserAlerts (run maxN ops).alerts B).filter
        (fun a => decide (a.id ≠ r.id))).length
        = (getUserAlerts (run maxN ops).alerts B).length := by rw [hfix]
    simp only [delete_alert]
    rw [if_pos hlen]

/-- Closed instance for C3: owner `"bob"` deleting `"alice"`'s alert
(id 0) gets `AlertNotFoundError` and the state is unchanged. -/
theorem ownership_isolation_witness :
    delete_alert (run 10 demoOpsC3) true "bob" 0
      = (Except.error (AlertError.notFound 0), run 10 demoOpsC3) := by
  have h := ownership_isolation 10 demoOpsC3 "alice" "bob" (by decide)
  have heq : list_alerts (run 10 demoOpsC3) "alice"
      = [mkAlertRec (initState 10) "alice" dPrice] := rfl
  have hr : mkAlertRec (initState 10) "alice" dPrice
      ∈ list_alerts (run 10 demoOpsC3) "alice" := by
    rw [heq]; exact List.mem_singleton.mpr rfl
  have := h.2 (mkAlertRec (initState 10) "alice" dPrice) hr true
  simpa using this

/-! ### C4: price-threshold verdict -/

theorem format2_205 : format2 205 = "205.00" := by
  have h : round ((205 : ℚ) * 100) = 20500 := by norm_num
  simp only [format2, h]
  norm_num [padTwo]
  rfl

theorem format2_0 : format2 0 = "0.00" := by
  have h : round ((0 : ℚ) * 100) = 0 := by norm_num
  simp only [format2, h]
  norm_num [padTwo]
  rfl

/-- C4.  For a price-threshold alert whose fetch succeeds with price
`p`, the verdict is triggered exactly when (`direction = Above` and
`p > target`) or (`direction = Below` and `p < target`); a price equal
to the target never triggers; and the spec scenario (target 200, Above,
last close 205.0) yields triggered with current value `"205.00"`. -/
theorem price_threshold_verdict (fetch : String → Option ℚ) (a : AlertRec)
    (tk : String) (dir : PriceDirection) (tgt p : ℚ)
    (htk : a.ticker = some tk) (hdir : a.price_direction = some dir)
    (htgt : a.target_price = some tgt) (hp : fetch tk = some p) :
    ((evaluate_price_threshold fetch a).triggered = true ↔
      (dir = PriceDirection.above ∧ tgt < p) ∨
      (dir = PriceDirection.below ∧ p < tgt)) ∧
    (p = tgt → (evaluate_price_threshold fetch a).triggered = false) ∧
    ((evaluate_price_threshold (fun t => some 205) aaplAlert).triggered
        = true ∧
      (evaluate_price_threshold (fun t => some 205) aaplAlert).current_value
        = some "205.00") := by
  have hbind : a.ticker.bind fetch = some p := by rw [htk]; exact hp
  have htrig : (evaluate_price_threshold fetch a).triggered =
      (if dir = PriceDirection.above then decide (tgt < p)
        else decide (p < tgt)) := by
    simp [evaluate_price_threshold, hbind, hdir, htgt]
  refine ⟨?_, ?_, ?_, ?_⟩
  · rw [htrig]
    cases dir <;> simp
  · intro hpe
    subst hpe
    rw [htrig]
    cases dir <;> simp
  · have hb : aaplAlert.ticker.bind (fun t => some (205 : ℚ))
        = some 205 := rfl
    simp only [evaluate_price_threshold, hb, aaplAlert]
    norm_num
  · have hb : aaplAlert.ticker.bind (fun t => some (205 : ℚ))
        = some 205 := rfl
    simp only [evaluate_price_threshold, hb, aaplAlert]
    simp [format2_205]

/-- Closed instance for C4: with the provider returning 195.0 instead,
the same alert is not triggered (the spec's second scenario). -/
theorem price_threshold_verdict_witness :
    (evaluate_price_threshold (fun t => some (195 : ℚ)) aaplAlert).triggered
      = false := by
  have h := price_threshold_verdict (fun t => some (195 : ℚ)) aaplAlert
    "AAPL" PriceDirection.above 200 195 rfl rfl rfl rfl
  cases hb : (evaluate_price_threshold (fun t => some (195 : ℚ))
      aaplAlert).triggered
  · rfl
  · exact absurd (h.1.mp hb) (by decide)

/-! ### C5, C6, C10: portfolio-value evaluation -/

theorem portfolioTotal_eq_sum (fetch : String → Option ℚ)
    (holdings : List String) :
    portfolioTotal fetch holdings = (holdings.filterMap fetch).sum := by
  suffices h : ∀ acc : ℚ, holdings.foldl
      (fun acc t => match fetch t with | some p => acc + p | none => acc) acc
      = acc + (holdings.filterMap fetch).sum by
    simpa [portfolioTotal] using h 0
  induction holdings with
  | nil => intro acc; simp
  | cons t ts ih =>
      intro acc
      cases hft : fetch t <;>
        simp [List.filterMap_cons, hft, ih, add_assoc]

theorem evaluate_portfolio_value_eq (fetch : String → Option ℚ)
    (holdings : List String) (a : AlertRec) (th : ℚ)
    (hne : holdings ≠ []) (hth : a.percentage_threshold = some th) :
    evaluate_portfolio_value fetch holdings a =
      { alert := alertToSummary a,
        triggered := decide (th ≤
          (if 0 < a.baseline_value.getD 0 then
            |(portfolioTotal fetch holdings - a.baseline_value.getD 0) /
              a.baseline_value.getD 0| * 100 else 0)),
        current_value := some (format2 (portfolioTotal fetch holdings)),
        details := some (mkPortfolioDetails
          (if 0 < a.baseline_value.getD 0 then
            |(portfolioTotal fetch holdings - a.baseline_value.getD 0) /
              a.baseline_value.getD 0| * 100 else 0)
          (a.baseline_value.getD 0) (portfolioTotal fetch holdings) th
          (decide (th ≤
            (if 0 < a.baseline_value.getD 0 then
              |(portfolioTotal fetch holdings - a.baseline_value.getD 0) /
                a.baseline_value.getD 0| * 100 else 0)))),
        error := none } := by
  have hisE : holdings.isEmpty = false := by
    cases holdings with
    | nil => exact absurd rfl hne
    | cons x xs => rfl
  simp [evaluate_portfolio_value, hisE, hth]

/-- C5.  A portfolio-value alert with empty holdings is not triggered
and reports value zero; with non-empty holdings and current total `c`
and baseline `b`, the verdict is triggered exactly when the percentage
change — `|c - b| / b * 100` for `b > 0`, and `0` otherwise — is at
least the threshold; and the spec scenario (threshold 5, baseline 1000,
single close 1060) has percentage change 6 and triggers. -/
theorem portfolio_value_verdict (fetch : String → Option ℚ)
    (holdings : List String) (a : AlertRec) (th : ℚ)
    (hth : a.percentage_threshold = some th) :
    (holdings = [] →
      evaluate_portfolio_value fetch holdings a =
        { alert := alertToSummary a, triggered := false,
          current_value := some "0.00",
          details := some "Portfolio has no holdings, value is $0.00",
          error := none }) ∧
    (holdings ≠ [] →
      (evaluate_portfolio_value fetch holdings a).error = none ∧
      (0 < a.baseline_value.getD 0 →
        ((evaluate_portfolio_value fetch holdings a).triggered = true ↔
          th ≤ |portfolioTotal fetch holdings - a.baseline_value.getD 0| /
            a.baseline_value.getD 0 * 100)) ∧
      (a.baseline_value.getD 0 ≤ 0 →
        ((evaluate_portfolio_value fetch holdings a).triggered = true ↔
          th ≤ 0))) ∧
    (|((1060 : ℚ) - 1000) / 1000| * 100 = 6 ∧
      (evaluate_portfolio_value (fun t => some (1060 : ℚ)) ["X"]
        pfAlert).triggered = true) := by
  refine ⟨?_, ?_, ?_, ?_⟩
  · intro he
    subst he
    simp [evaluate_portfolio_value]
  · intro hne
    rw [evaluate_portfolio_value_eq fetch holdings a th hne hth]
    refine ⟨rfl, ?_, ?_⟩
    · intro hb
      rw [abs_div, abs_of_pos hb]
      simp [hb]
    · intro hb
      have hb2 : ¬ 0 < a.baseline_value.getD 0 := not_lt.mpr hb
      simp [hb2]
  · rw [abs_of_nonneg] <;> norm_num
  · have hne : (["X"] : List String) ≠ [] := by simp
    rw [evaluate_portfolio_value_eq (fun t => some (1060 : ℚ)) ["X"]
      pfAlert 5 hne rfl]
    have htot : portfolioTotal (fun t => some (1060 : ℚ)) ["X"] = 1060 := by
      simp [portfolioTotal]
    simp only [htot, pfAlert]
    norm_num
    rw [abs_of_nonneg] <;> norm_num

/-- Closed instance for C5: the spec scenario triggers, and the same
alert over empty holdings reports value `"0.00"` untriggered. -/
theorem portfolio_value_verdict_witness :
    (evaluate_portfolio_value (fun t => some (1060 : ℚ)) ["X"]
        pfAlert).triggered = true ∧
    evaluate_portfolio_value (fun t => some (1060 : ℚ)) [] pfAlert
      = { alert := alertToSummary pfAlert, triggered := false,
          current_value := some "0.00",
          details := some "Portfolio has no holdings, value is $0.00",
          error := none } := by
  have h1 := portfolio_value_verdict (fun t => some (1060 : ℚ)) ["X"]
    pfAlert 5 rfl
  have h2 := portfolio_value_verdict (fun t => some (1060 : ℚ)) []
    pfAlert 5 rfl
  exact ⟨h1.2.2.2, h2.1 rfl⟩

/-- C6.  For non-empty holdings, every holding whose fetch fails is
skipped individually: the accumulated total equals the sum of the
closing prices of exactly the successfully fetched holdings, the
reported current value renders that sum, and the result carries no
error; in the spec scenario (holdings A, B, C with B failing) the total
is A's close plus C's close only. -/
theorem portfolio_fetch_failures_skipped (fetch : String → Option ℚ)
    (holdings : List String) (a : AlertRec) (th : ℚ)
    (hne : holdings ≠ []) (hth : a.percentage_threshold = some th) :
    (portfolioTotal fetch holdings = (holdings.filterMap fetch).sum ∧
     (evaluate_portfolio_value fetch holdings a).error = none ∧
     (evaluate_portfolio_value fetch holdings a).current_value
       = some (format2 ((holdings.filterMap fetch).sum))) ∧
    (portfolioTotal demoFetchC6 ["A", "B", "C"] = 10 + 32 ∧
     (evaluate_portfolio_value demoFetchC6 ["A", "B", "C"] pfAlert).error
       = none) := by
  have hsum := portfolioTotal_eq_sum fetch holdings
  have heq := evaluate_portfolio_value_eq fetch holdings a th hne hth
  refine ⟨⟨hsum, ?_, ?_⟩, ?_, ?_⟩
  · rw [heq]
  · rw [heq, hsum]
  · simp [portfolioTotal, demoFetchC6]
  · have hne3 : (["A", "B", "C"] : List String) ≠ [] := by simp
    rw [evaluate_portfolio_value_eq demoFetchC6 ["A", "B", "C"]
      pfAlert 5 hne3 rfl]

/-- Closed instance for C6: the A, B, C scenario with B failing. -/
theorem portfolio_fetch_failures_skipped_witness :
    portfolioTotal demoFetchC6 ["A", "B", "C"]
      = (["A", "B", "C"].filterMap demoFetchC6).sum ∧
    (evaluate_portfolio_value demoFetchC6 ["A", "B", "C"] pfAlert).error
      = none := by
  have h := portfolio_fetch_failures_skipped demoFetchC6 ["A", "B", "C"]
    pfAlert 5 (by simp) rfl
  exact ⟨h.1.1, h.1.2.1⟩

/-- C10.  When every holding's fetch fails (non-empty holdings), the
result carries no error and reports current value `"0.00"`; with any
positive baseline the percentage change is 100, so the alert is
triggered exactly when the threshold is at most 100. -/
theorem portfolio_total_failure_reads_zero (fetch : String → Option ℚ)
    (holdings : List String) (a : AlertRec) (th b : ℚ)
    (hne : holdings ≠ []) (hfail : ∀ t ∈ holdings, fetch t = none)
    (hth : a.percentage_threshold = some th)
    (hb : a.baseline_value = some b) (hbpos : 0 < b) :
    (evaluate_portfolio_value fetch holdings a).error = none ∧
    (evaluate_portfolio_value fetch holdings a).current_value
      = some "0.00" ∧
    ((evaluate_portfolio_value fetch holdings a).triggered = true ↔
      th ≤ 100) := by
  have htot : portfolioTotal fetch holdings = 0 := by
    rw [portfolioTotal_eq_sum, List.filterMap_eq_nil_iff.mpr hfail]
    rfl
  have hgd : a.baseline_value.getD 0 = b := by rw [hb]; rfl
  have heq := evaluate_portfolio_value_eq fetch holdings a th hne hth
  have hpct : (if 0 < a.baseline_value.getD 0 then
      |(portfolioTotal fetch holdings - a.baseline_value.getD 0) /
        a.baseline_value.getD 0| * 100 else 0) = 100 := by
    rw [htot, hgd, if_pos hbpos, zero_sub, neg_div,
      div_self (ne_of_gt hbpos), abs_neg, abs_one, one_mul]
  rw [heq, hpct, htot, format2_0]
  simp

/-- Closed instance for C10: holdings `["X"]` with the provider failing
on everything, baseline 1000, threshold 5 — reported as a portfolio
worth `"0.00"`, no error, triggered. -/
theorem portfolio_total_failure_reads_zero_witness :
    (evaluate_portfolio_value (fun t => none) ["X"] pfAlert).error
        = none ∧
    (evaluate_portfolio_value (fun t => none) ["X"] pfAlert).current_value
        = some "0.00" ∧
    (evaluate_portfolio_value (fun t => none) ["X"] pfAlert).triggered
        = true := by
  have h := portfolio_total_failure_reads_zero (fun t => none) ["X"]
    pfAlert 5 1000 (by simp) (by simp) rfl rfl (by decide)
  exact ⟨h.1, h.2.1, h.2.2.mpr (by decide)⟩

/-! ### C7: batch evaluation completeness -/

theorem evaluate_price_threshold_summary (fetch : String → Option ℚ)
    (a : AlertRec) :
    (evaluate_price_threshold fetch a).alert = alertToSummary a := by
  rcases hbf : a.ticker.bind fetch with _ | p
  · simp [evaluate_price_threshold, hbf]
  · rcases hd : a.price_direction with _ | dir <;>
      rcases ht : a.target_price with _ | tgt <;>
        simp [evaluate_price_threshold, hbf, hd, ht]

theorem evaluate_signal_change_summary
    (signalOf : String → Option SignalTarget) (a : AlertRec) :
    (evaluate_signal_change signalOf a).alert = alertToSummary a := by
  rcases hbf : a.ticker.bind signalOf with _ | cur <;>
    rcases ht : a.target_signal with _ | tgtS <;>
      simp [evaluate_signal_change, hbf, ht]

theorem evaluate_portfolio_value_summary (fetch : String → Option ℚ)
    (holdings : List String) (a : AlertRec) :
    (evaluate_portfolio_value fetch holdings a).alert = alertToSummary a := by
  rcases hh : holdings.isEmpty with _ | _
  · rcases ht : a.percentage_threshold with _ | th <;>
      simp [evaluate_portfolio_value, hh, ht]
  · simp [evaluate_portfolio_value, hh]

theorem dispatchAlert_summary (fetch : String → Option ℚ)
    (signalOf : String → Option SignalTarget) (holdings : List String)
    (a : AlertRec) :
    (dispatchAlert fetch signalOf holdings a).alert = alertToSummary a := by
  cases ht : a.alert_type <;>
    simp [dispatchAlert, ht, evaluate_price_threshold_summary,
      evaluate_signal_change_summary, evaluate_portfolio_value_summary]

/-- C7.  Batch evaluation of an owner with K stored alerts returns
exactly K results, positionally one per alert in listing order (each
result referencing the summary of its source alert), and the summary
satisfies `total = K`, `triggered_count` = number of triggered results,
`error_count` = number of results carrying an error, and
`not_triggered_count = total - triggered_count - error_count`.  The
batch is a total function of the per-alert results — no single alert's
failure can fail it as a whole. -/
theorem batch_evaluation_complete (s : StoreState) (uid : String)
    (fetch : String → Option ℚ) (signalOf : String → Option SignalTarget)
    (ph : Option (List String)) :
    ((check_triggered_alerts s uid fetch signalOf ph).1.length
        = (list_alerts s uid).length) ∧
    (∀ i : Nat,
      ((check_triggered_alerts s uid fetch signalOf ph).1[i]?).map
          (fun r => r.alert)
        = ((list_alerts s uid)[i]?).map (fun a => alertToSummary a)) ∧
    ((check_triggered_alerts s uid fetch signalOf ph).2 =
      { total_alerts := ((list_alerts s uid).length : ℤ),
        triggered_count :=
          (((check_triggered_alerts s uid fetch signalOf ph).1.filter
            (fun r => r.triggered)).length : ℤ),
        not_triggered_count := ((list_alerts s uid).length : ℤ)
          - (((check_triggered_alerts s uid fetch signalOf ph).1.filter
              (fun r => r.triggered)).length : ℤ)
          - (((check_triggered_alerts s uid fetch signalOf ph).1.filter
              (fun r => r.error.isSome)).length : ℤ),
        error_count :=
          (((check_triggered_alerts s uid fetch signalOf ph).1.filter
            (fun r => r.error.isSome)).length : ℤ) }) := by
  refine ⟨?_, ?_, ?_⟩
  · simp [check_triggered_alerts]
  · intro i
    simp only [check_triggered_alerts, List.getElem?_map]
    cases (list_alerts s uid)[i]? with
    | none => rfl
    | some a => simp [dispatchAlert_summary]
  · simp [check_triggered_alerts]

/-! ### C8: durability round-trip -/

theorem decodeNat_encode (n : Nat) :
    decodeNat (Json.num (n : ℚ)) = some n := by
  simp [decodeNat]

theorem decodeOptStr_encode (o : Option String) :
    decodeOptStr (encodeOptStr o) = some o := by
  cases o <;> rfl

theorem decodeOptQ_encode (o : Option ℚ) :
    decodeOptQ (encodeOptQ o) = some o := by
  cases o <;> rfl

theorem alertTypeOfStr_encode (t : AlertType) :
    alertTypeOfStr (alertTypeStr t) = some t := by
  cases t <;> rfl

theorem decodeOptDir_encode (o : Option PriceDirection) :
    decodeOptDir (encodeOptStr (o.map dirStr)) = some o := by
  rcases o with _ | d
  · rfl
  · cases d <;> rfl

theorem decodeOptSignal_encode (o : Option SignalTarget) :
    decodeOptSignal (encodeOptStr (o.map signalStr)) = some o := by
  rcases o with _ | d
  · rfl
  · cases d <;> rfl

theorem decodeRec_encode (a : AlertRec) :
    decodeRec (encodeRec a) = some a := by
  simp only [encodeRec, decodeRec, jlookup, List.find?]
  simp [decodeNat_encode, decodeOptStr_encode, decodeOptQ_encode,
    decodeOptDir_encode, decodeOptSignal_encode, alertTypeOfStr_encode,
    decodeStr]

theorem decodeList_encode (xs : List AlertRec) :
    decodeList (xs.map encodeRec) = some xs := by
  induction xs with
  | nil => rfl
  | cons a rest ih => simp [decodeList, decodeRec_encode, ih]

theorem decodeEntries_encode (m : AlertsMap) :
    decodeEntries (encodeMapRaw m) = some m := by
  induction m with
  | nil => rfl
  | cons p rest ih =>
      obtain ⟨k, v⟩ := p
      have ih2 : decodeEntries (List.map
          (fun p => (p.1, Json.arr (List.map encodeRec p.2))) rest)
          = some rest := by simpa [encodeMapRaw] using ih
      simp [encodeMapRaw, decodeEntries, decodeList_encode, ih2]

theorem loadAlertsRaw_encode (m : AlertsMap) :
    loadAlertsRaw (FileState.parsed (encodeMap m))
      = some (encodeMapRaw m) := by
  show (if ((encodeMapRaw m).map (fun p => jsonLen p.2)).all Option.isSome
    then some (encodeMapRaw m) else none) = some (encodeMapRaw m)
  rw [if_pos]
  apply List.all_eq_true.mpr
  intro x hx
  simp only [encodeMapRaw, List.map_map, List.mem_map,
    Function.comp] at hx
  obtain ⟨p, hp, rfl⟩ := hx
  rfl

/-- C8.  Durability round-trip: after any sequence of operations from a
fresh store, serializing the in-memory mapping to the durable file and
constructing a fresh store over it succeeds without being treated as
corrupt (the raw file mapping is adopted verbatim), and typed reading of
that file yields a mapping identical to the in-memory one — same owners,
same ids and field values, in the same per-owner order. -/
theorem durability_roundtrip (maxN : Nat) (ops : List Op) :
    loadAlertsRaw (FileState.parsed (encodeMap (run maxN ops).alerts))
        = some (encodeMapRaw (run maxN ops).alerts) ∧
    decodeMap (encodeMap (run maxN ops).alerts)
        = some (run maxN ops).alerts :=
  ⟨loadAlertsRaw_encode (run maxN ops).alerts,
   decodeEntries_encode (run maxN ops).alerts⟩

/-! ### C9: startup policy -/

/-- C9 counterexample: `_load_alerts` checks only that the parsed top
level is a dict, not that its values are alert sequences.  Over the
parsed file `{"alice": 42}` the constructor raises an uncaught
`TypeError` (`len(42)` on logging line 57 is inside the `try` but not
among the caught exception types), so construction fails instead of
yielding an empty store; and over `{"alice": {"k": 1}}` the non-sequence
mapping is adopted verbatim instead of the store starting empty. -/
theorem startup_nonmapping_cex :
    loadAlertsRaw (FileState.parsed (Json.obj [("alice", Json.num 42)]))
        = none ∧
    loadAlertsRaw (FileState.parsed
        (Json.obj [("alice", Json.obj [("k", Json.num 1)])]))
      = some [("alice", Json.obj [("k", Json.num 1)])] := by
  constructor <;> rfl

/-- C9 (amended): a missing durable file yields an empty store; a file
that fails to parse yields an empty store; a parsed file whose top-level
value is not a dict yields an empty store; a parsed top-level dict is
adopted verbatim without validating that its values are alert sequences
— except that a dict containing a value with no `len` (number, boolean
or null) makes construction raise instead of starting empty. -/
theorem startup_policy (j : Json) (kvs : List (String × Json)) :
    loadAlertsRaw FileState.missing = some [] ∧
    loadAlertsRaw FileState.unparsable = some [] ∧
    ((∀ ks : List (String × Json), j ≠ Json.obj ks) →
      loadAlertsRaw (FileState.parsed j) = some []) ∧
    ((∀ p ∈ kvs, (jsonLen p.2).isSome = true) →
      loadAlertsRaw (FileState.parsed (Json.obj kvs)) = some kvs) ∧
    ((∃ p ∈ kvs, jsonLen p.2 = none) →
      loadAlertsRaw (FileState.parsed (Json.obj kvs)) = none) := by
  refine ⟨rfl, rfl, ?_, ?_, ?_⟩
  · intro h
    cases j with
    | obj ks => exact absurd rfl (h ks)
    | null => rfl
    | bool b => rfl
    | num q => rfl
    | str s => rfl
    | arr xs => rfl
  · intro h
    show (if (kvs.map (fun p => jsonLen p.2)).all Option.isSome
      then some kvs else none) = some kvs
    rw [if_pos]
    apply List.all_eq_true.mpr
    intro x hx
    obtain ⟨p, hp, rfl⟩ := List.mem_map.mp hx
    exact h p hp
  · intro h
    obtain ⟨p, hp, hnone⟩ := h
    show (if (kvs.map (fun p => jsonLen p.2)).all Option.isSome
      then some kvs else none) = none
    rw [if_neg]
    intro hall
    have := List.all_eq_true.mp hall (jsonLen p.2)
      (List.mem_map.mpr ⟨p, hp, rfl⟩)
    rw [hnone] at this
    cases this

/-- Closed instance for C9's amended statement: a parsed non-dict file
(a bare JSON array) and a well-formed one-owner file. -/
theorem startup_policy_witness :
    loadAlertsRaw (FileState.parsed (Json.arr [])) = some [] ∧
    loadAlertsRaw (FileState.parsed
        (Json.obj [("alice", Json.arr [])]))
      = some [("alice", Json.arr [])] := by
  have h := startup_policy (Json.arr []) [("alice", Json.arr [])]
  refine ⟨h.2.2.1 ?_, h.2.2.2.1 ?_⟩
  · intro ks hk
    cases hk
  · intro p hp
    rw [List.mem_singleton.mp hp]
    rfl

end AlertApp
